import Mathlib

set_option linter.unusedVariables false

/-!
Verification of the Gemini audio/text Streamlit application (`app.py`).

The file embeds the externally relevant logic of the application shallowly:
pure string manipulation (extension splitting, lowercasing, stripping) is
translated to Lean functions, the stateful request flows are translated to
explicit state passing over a `Trace` record (errors and warnings shown,
remote calls issued, temporary files on disk), and remote behaviour is an
explicit environment value (the response or exception each remote call
would produce).  Fallible operations return `Option`.
-/

namespace App

/-! ### Python string primitives used by `app.py`

`pyRfind` is `str.rfind` for a single character (`-1` when absent).
`pySplitext` is `posixpath.splitext`: the extension starts at the last dot
of the basename, except that a basename consisting of leading dots only has
no extension.  `pyLower` is `str.lower` (the paths in play are ASCII, where
Python's lowering agrees with `Char.toLower`).  `pyStrip` is `str.strip()`
for the ASCII whitespace characters.  `pyTruthy` is Python truthiness of an
optional string: `None` and `""` are falsy. -/

def pyRfind (cs : List Char) (c : Char) : Int :=
  match cs.reverse.findIdx? (· = c) with
  | none => -1
  | some i => (cs.length : Int) - 1 - (i : Int)

def pySplitextList (cs : List Char) : List Char × List Char :=
  let sepIndex := pyRfind cs '/'
  let dotIndex := pyRfind cs '.'
  if dotIndex > sepIndex then
    let filenameStart := (sepIndex + 1).toNat
    let between := (cs.drop filenameStart).take (dotIndex.toNat - filenameStart)
    if between.any (· ≠ '.') then
      (cs.take dotIndex.toNat, cs.drop dotIndex.toNat)
    else (cs, [])
  else (cs, [])

def pySplitext (p : String) : String × String :=
  let r := pySplitextList p.data
  (String.mk r.1, String.mk r.2)

def pyLower (s : String) : String :=
  String.mk (s.data.map Char.toLower)

def pyIsSpace (c : Char) : Bool :=
  c = ' ' || c = '\t' || c = '\n' || c = '\x0d' || c = '\x0b' || c = '\x0c'

def pyStrip (s : String) : String :=
  String.mk (((s.data.dropWhile pyIsSpace).reverse.dropWhile pyIsSpace).reverse)

def pyTruthy : Option String → Bool
  | none => false
  | some s => s ≠ ""

/-! ### MIME type selection (`upload_audio_to_gemini`, lines 77–86)

`mime_type_map` is the dict literal from the source; `mimeGet` is
`dict.get` with the default `'audio/wav'`; `uploadMimeType` is the whole
computation `mime_type_map.get(os.path.splitext(audio_path)[1].lower(),
'audio/wav')`. -/

def mime_type_map : List (String × String) :=
  [(".wav", "audio/wav"),
   (".mp3", "audio/mpeg"),
   (".m4a", "audio/mp4"),
   (".ogg", "audio/ogg"),
   (".flac", "audio/flac")]

def mimeGet (ext : String) : String :=
  (mime_type_map.lookup ext).getD "audio/wav"

def uploadMimeType (audio_path : String) : String :=
  mimeGet (pyLower (pySplitext audio_path).2)

/-! ### Provider response shapes

Only the JSON fields the code reads are modelled.  `UploadResponse.fileUri`
is `response_json.get('file', {}).get('uri')`: `none` when either the
`file` object or its `uri` key is absent.  A generate response is
`candidates[].content.parts[].text`; each `get(..., default)` indirection
in the source is kept as an `Option`. -/

structure UploadResponse where
  status_code : Nat
  fileUri : Option String
  respText : String
  deriving Repr, DecidableEq

structure GenPart where
  textField : Option String
  deriving Repr, DecidableEq

structure GenContent where
  partsField : Option (List GenPart)
  deriving Repr, DecidableEq

structure Candidate where
  contentField : Option GenContent
  deriving Repr, DecidableEq

structure GenerateResponse where
  status_code : Nat
  candidates : List Candidate
  respText : String
  deriving Repr, DecidableEq

/-- `candidate.get("content", {}).get("parts", [])` (line 146). -/
def candidateParts (c : Candidate) : List GenPart :=
  match c.contentField with
  | none => []
  | some ct => ct.partsField.getD []

/-- Inner loop of lines 145–148: first part of the list carrying a
`text` key (note: key presence, not truthiness — an empty string is
returned as-is). -/
def findTextInParts : List GenPart → Option String
  | [] => none
  | p :: rest =>
    match p.textField with
    | some t => some t
    | none => findTextInParts rest

/-- Outer loop of lines 145–150: scan candidates in order; inside each,
scan its parts in order; `None` when nothing carries text. -/
def extractTranscript : List Candidate → Option String
  | [] => none
  | c :: rest =>
    match findTextInParts (candidateParts c) with
    | some t => some t
    | none => extractTranscript rest

/-! ### Observable effects of one request

A `Trace` records what a request flow does besides returning a value:
messages shown with `st.error` / `st.warning`, which remote calls were
issued, and the temporary files currently on local disk (name and
content). -/

structure Trace where
  errors : List String
  warnings : List String
  downloadCalled : Bool
  uploadCalled : Bool
  generateCalled : Bool
  processCalled : Bool
  tempFiles : List (String × List Nat)
  deriving Repr, DecidableEq

def Trace.empty : Trace :=
  ⟨[], [], false, false, false, false, []⟩

def Trace.addError (tr : Trace) (m : String) : Trace :=
  { tr with errors := tr.errors ++ [m] }

def Trace.addWarning (tr : Trace) (m : String) : Trace :=
  { tr with warnings := tr.warnings ++ [m] }

def Trace.addTempFile (tr : Trace) (name : String) (content : List Nat) : Trace :=
  { tr with tempFiles := tr.tempFiles ++ [(name, content)] }

/-- `os.unlink(p)` guarded by `os.path.exists(p)` (lines 311–312). -/
def Trace.removeTempFile (tr : Trace) (name : String) : Trace :=
  { tr with tempFiles := tr.tempFiles.filter (fun f => f.1 ≠ name) }

/-! ### `download_audio_from_url` (lines 56–72)

The remote behaviour of the one `requests.get` is an environment value:
either the GET (or `raise_for_status`) raises before any file is created,
or the temporary file is created and an exception interrupts the chunk
loop after some chunks were written, or all chunks are written.  The
temporary file name is `freshBase ++ ".wav"` (the fixed
`suffix='.wav'` of `NamedTemporaryFile`); the downloaded content type is
carried in the environment but never read by the code. -/

inductive DownloadOutcome where
  | getFails (msg : String)
  | writeFails (written : List (List Nat)) (msg : String)
  | ok (contentType : String) (chunks : List (List Nat))
  deriving Repr, DecidableEq

def download_audio_from_url (env : DownloadOutcome) (freshBase : String)
    (tr : Trace) : Trace × Option String :=
  let tr := { tr with downloadCalled := true }
  match env with
  | .getFails msg =>
    ((tr.addError ("Error downloading audio from URL: " ++ msg)), none)
  | .writeFails written msg =>
    -- `NamedTemporaryFile(delete=False)` already created the file and the
    -- `except` branch returns without unlinking it: the file stays behind.
    let tr := tr.addTempFile (freshBase ++ ".wav") written.flatten
    ((tr.addError ("Error downloading audio from URL: " ++ msg)), none)
  | .ok _ chunks =>
    let tr := tr.addTempFile (freshBase ++ ".wav") chunks.flatten
    (tr, some (freshBase ++ ".wav"))

/-! ### `upload_audio_to_gemini` (lines 74–108)

The environment is what the one `requests.post` does: raise (`.error`) or
return a response.  A non-200 status and a non-truthy `file.uri` both
raise inside the `try` and are caught by the function's own `except`,
which shows the error and returns `(None, None)` — modelled as `none`. -/

def upload_audio_to_gemini (env : Except String UploadResponse)
    (audio_path display_name : String) (tr : Trace) :
    Trace × Option (String × String) :=
  let mime_type := uploadMimeType audio_path
  let tr := { tr with uploadCalled := true }
  match env with
  | .error msg =>
    (tr.addError ("Error uploading audio file: " ++ msg), none)
  | .ok resp =>
    if resp.status_code ≠ 200 then
      (tr.addError ("Error uploading audio file: Failed to upload file. Response: "
        ++ resp.respText), none)
    else if pyTruthy resp.fileUri then
      (tr, some (mime_type, resp.fileUri.getD ""))
    else
      (tr.addError "Error uploading audio file: No file URI returned from upload", none)

/-! ### `generate_transcript_from_audio` (lines 110–154)

First calls the upload; a missing URI aborts before the generate call
(`if not file_uri: return None`, lines 116–117).  The generate call's
behaviour is again an environment value; a raised exception or a non-200
status is caught by the function's `except`, shown, and yields `None`;
otherwise the transcript is extracted from the candidates. -/

def generate_transcript_from_audio (uploadEnv : Except String UploadResponse)
    (genEnv : Except String GenerateResponse)
    (audio_path display_name user_prompt : String) (tr : Trace) :
    Trace × Option String :=
  let r := upload_audio_to_gemini uploadEnv audio_path display_name tr
  let tr := r.1
  match r.2 with
  | none => (tr, none)
  | some (mime_type, file_uri) =>
    if pyTruthy (some file_uri) then
      let tr := { tr with generateCalled := true }
      match genEnv with
      | .error msg =>
        (tr.addError ("Error generating transcript: " ++ msg), none)
      | .ok resp =>
        if resp.status_code ≠ 200 then
          (tr.addError ("Error generating transcript: Failed to generate content. Response: "
            ++ resp.respText), none)
        else
          (tr, extractTranscript resp.candidates)
    else
      (tr, none)

/-! ### `process_text_with_gemini` (lines 156–202) -/

/-- The single user-role message built at lines 162–169; a part is its
text.  The f-string is
`f"Give Proper JSON output as mentioned in the format, that will make it easier to parse.\n{prompt}\n{transcript}"`. -/
structure MsgContent where
  role : String
  parts : List String
  deriving Repr, DecidableEq

def process_text_contents (prompt transcript : String) : List MsgContent :=
  [{ role := "user",
     parts := ["Give Proper JSON output as mentioned in the format, that will make it easier to parse.\n"
       ++ prompt ++ "\n" ++ transcript] }]

/-- `types.HarmCategory` members used by the SDK (the code uses four of
them). -/
inductive HarmCategory where
  | HARM_CATEGORY_HATE_SPEECH
  | HARM_CATEGORY_SEXUALLY_EXPLICIT
  | HARM_CATEGORY_HARASSMENT
  | HARM_CATEGORY_DANGEROUS_CONTENT
  | HARM_CATEGORY_CIVIC_INTEGRITY
  deriving Repr, DecidableEq

/-- `types.HarmBlockThreshold` members; `BLOCK_NONE` is the
most-permissive (no-block) threshold. -/
inductive HarmBlockThreshold where
  | BLOCK_NONE
  | BLOCK_ONLY_HIGH
  | BLOCK_MEDIUM_AND_ABOVE
  | BLOCK_LOW_AND_ABOVE
  deriving Repr, DecidableEq

/-- The `safety_settings` list of the `GenerateContentConfig`
(lines 171–190). -/
def process_text_safety_settings : List (HarmCategory × HarmBlockThreshold) :=
  [(.HARM_CATEGORY_HATE_SPEECH, .BLOCK_NONE),
   (.HARM_CATEGORY_SEXUALLY_EXPLICIT, .BLOCK_NONE),
   (.HARM_CATEGORY_HARASSMENT, .BLOCK_NONE),
   (.HARM_CATEGORY_DANGEROUS_CONTENT, .BLOCK_NONE)]

/-- The remote call returns `response.text` (`Option String`: the SDK may
yield no text) or raises.  Line 198: `return response.text if
response.text else None` — Python truthiness, so `""` becomes `None`. -/
def process_text_with_gemini (env : Except String (Option String))
    (prompt transcript : String) (tr : Trace) : Trace × Option String :=
  let contents := process_text_contents prompt transcript
  let config := process_text_safety_settings
  let tr := { tr with processCalled := true }
  match env with
  | .error msg =>
    (tr.addError ("Error processing with Gemini: " ++ msg), none)
  | .ok respText =>
    if pyTruthy respText then (tr, respText) else (tr, none)

/-! ### `main` (lines 204–379): the three per-request flows

Each flow starts at the button press, with the remote behaviour fixed by
environment values.  `freshBase` is the fresh name the tempfile module
would pick (the suffix is appended as in the source). -/

/-- `audio_url.split('/')[-1].split('?')[0] or "audio_file"` (line 264). -/
def urlDisplayName (audio_url : String) : String :=
  let lastSeg := (audio_url.split (· = '/')).getLastD ""
  let name := ((lastSeg.split (· = '?')).headD "")
  if name = "" then "audio_file" else name

/-- Transcription flow, uploaded-file branch (lines 267–312): prompt
validation, temp file creation with the uploaded file's extension as
suffix (line 275), transcript generation, result/error display, and the
`finally` cleanup. -/
def mainTranscribeUploaded (fileName : String) (fileBytes : List Nat)
    (audio_prompt freshBase : String)
    (uploadEnv : Except String UploadResponse)
    (genEnv : Except String GenerateResponse)
    (tr : Trace) : Trace × Option String :=
  if pyStrip audio_prompt = "" then
    (tr.addWarning "⚠️ Please enter a transcription prompt", none)
  else
    let tmp_path := freshBase ++ (pySplitext fileName).2
    let tr := tr.addTempFile tmp_path fileBytes
    let r := generate_transcript_from_audio uploadEnv genEnv tmp_path fileName audio_prompt tr
    let tr := r.1
    let tr := if pyTruthy r.2 then tr
      else tr.addError "❌ Failed to generate transcript. Please try again."
    let tr := tr.removeTempFile tmp_path
    (tr, r.2)

/-- Transcription flow, URL branch (lines 267–312 with lines 278–283):
after a failed download `tmp_path` is `None`, the error is shown and the
`finally` block finds no path to remove (it cannot reach the file the
download may have left behind). -/
def mainTranscribeUrl (audio_url audio_prompt freshBase : String)
    (dlEnv : DownloadOutcome)
    (uploadEnv : Except String UploadResponse)
    (genEnv : Except String GenerateResponse)
    (tr : Trace) : Trace × Option String :=
  if pyStrip audio_prompt = "" then
    (tr.addWarning "⚠️ Please enter a transcription prompt", none)
  else
    let r := download_audio_from_url dlEnv freshBase tr
    let tr := r.1
    match r.2 with
    | none =>
      (tr.addError "❌ Failed to download audio from URL", none)
    | some tmp_path =>
      let r2 := generate_transcript_from_audio uploadEnv genEnv tmp_path
        (urlDisplayName audio_url) audio_prompt tr
      let tr := r2.1
      let tr := if pyTruthy r2.2 then tr
        else tr.addError "❌ Failed to generate transcript. Please try again."
      let tr := tr.removeTempFile tmp_path
      (tr, r2.2)

/-- Text-processing flow (lines 340–368): prompt then transcript
validation, single remote call, result/error display. -/
def mainProcessText (prompt transcript : String)
    (env : Except String (Option String)) (tr : Trace) : Trace × Option String :=
  if pyStrip prompt = "" then
    (tr.addWarning "⚠️ Please enter a prompt", none)
  else if pyStrip transcript = "" then
    (tr.addWarning "⚠️ Please enter a transcript", none)
  else
    let r := process_text_with_gemini env prompt transcript tr
    let tr := r.1
    let tr := if pyTruthy r.2 then tr
      else tr.addError "❌ Failed to process. Please try again."
    (tr, r.2)

/-! ## Theorems -/

/-- The inner part scan is `findSome?` of the `text` field. -/
theorem findTextInParts_eq_findSome (l : List GenPart) :
    findTextInParts l = l.findSome? GenPart.textField := by
  induction l with
  | nil => rfl
  | cons p rest ih =>
    cases hp : p.textField <;>
      simp [findTextInParts, List.findSome?_cons, hp, ih]

/-- The candidate/part double scan is `findSome?` over the concatenation
of all candidates' part lists, in order. -/
theorem extractTranscript_eq_findSome (cs : List Candidate) :
    extractTranscript cs
      = ((cs.map candidateParts).flatten).findSome? GenPart.textField := by
  induction cs with
  | nil => rfl
  | cons c rest ih =>
    cases h : findTextInParts (candidateParts c) with
    | none =>
      have h' := findTextInParts_eq_findSome (candidateParts c)
      rw [h] at h'
      simp [extractTranscript, h, ih, List.findSome?_append, h'.symm]
    | some t =>
      have h' := findTextInParts_eq_findSome (candidateParts c)
      rw [h] at h'
      simp [extractTranscript, h, List.findSome?_append, h'.symm]

/-- C2: when the upload succeeded (status 200, truthy URI) and the
generation call returned status 200, the transcript is exactly the `text`
field of the first part carrying a `text` key, scanning candidates in
order and each candidate's parts in order; when no part carries text the
flow yields `none`. -/
theorem C2_transcript_is_first_text_part (u : UploadResponse)
    (resp : GenerateResponse) (audio_path display_name user_prompt : String)
    (tr : Trace) (hu : u.status_code = 200) (huri : pyTruthy u.fileUri = true)
    (hg : resp.status_code = 200) :
    (generate_transcript_from_audio (Except.ok u) (Except.ok resp)
        audio_path display_name user_prompt tr).2
      = ((resp.candidates.map candidateParts).flatten).findSome? GenPart.textField := by
  obtain ⟨s, hs, hne⟩ : ∃ s, u.fileUri = some s ∧ s ≠ "" := by
    cases hfu : u.fileUri with
    | none => simp [pyTruthy, hfu] at huri
    | some s => exact ⟨s, rfl, by simpa [pyTruthy, hfu] using huri⟩
  simp [generate_transcript_from_audio, upload_audio_to_gemini, hu, hg, hs,
    pyTruthy, hne, extractTranscript_eq_findSome]

/-- Witness for C2 at a concrete successful exchange: the second part of
the first candidate is the first one carrying a `text` key. -/
theorem C2_transcript_is_first_text_part_witness :
    (⟨200, some "files/abc", "ok"⟩ : UploadResponse).status_code = 200 ∧
    pyTruthy (⟨200, some "files/abc", "ok"⟩ : UploadResponse).fileUri = true ∧
    (⟨200, [⟨some ⟨some [⟨none⟩, ⟨some "hello world"⟩]⟩⟩, ⟨none⟩], "ok"⟩ :
      GenerateResponse).status_code = 200 ∧
    (generate_transcript_from_audio
        (Except.ok (⟨200, some "files/abc", "ok"⟩ : UploadResponse))
        (Except.ok (⟨200, [⟨some ⟨some [⟨none⟩, ⟨some "hello world"⟩]⟩⟩, ⟨none⟩], "ok"⟩ :
          GenerateResponse))
        "clip.mp3" "clip.mp3" "transcribe verbatim" Trace.empty).2
      = some "hello world" :=
  ⟨rfl, by decide, rfl,
    (C2_transcript_is_first_text_part ⟨200, some "files/abc", "ok"⟩
      ⟨200, [⟨some ⟨some [⟨none⟩, ⟨some "hello world"⟩]⟩⟩, ⟨none⟩], "ok"⟩
      "clip.mp3" "clip.mp3" "transcribe verbatim" Trace.empty rfl (by decide) rfl).trans
      (by decide)⟩

/-- C3: the mime type the upload uses is given by the fixed extension
table, and every extension outside the table falls back to `audio/wav`
(the extension here is the lowercased `splitext` extension the code looks
up). -/
theorem C3_mime_type_table (p : String) :
    (pyLower (pySplitext p).2 = ".wav" → uploadMimeType p = "audio/wav") ∧
    (pyLower (pySplitext p).2 = ".mp3" → uploadMimeType p = "audio/mpeg") ∧
    (pyLower (pySplitext p).2 = ".m4a" → uploadMimeType p = "audio/mp4") ∧
    (pyLower (pySplitext p).2 = ".ogg" → uploadMimeType p = "audio/ogg") ∧
    (pyLower (pySplitext p).2 = ".flac" → uploadMimeType p = "audio/flac") ∧
    (pyLower (pySplitext p).2 ∉ ([".wav", ".mp3", ".m4a", ".ogg", ".flac"] : List String) →
      uploadMimeType p = "audio/wav") := by
  have hrw : uploadMimeType p = mimeGet (pyLower (pySplitext p).2) := rfl
  refine ⟨fun h => ?_, fun h => ?_, fun h => ?_, fun h => ?_, fun h => ?_, fun h => ?_⟩
  · rw [hrw, h]; decide
  · rw [hrw, h]; decide
  · rw [hrw, h]; decide
  · rw [hrw, h]; decide
  · rw [hrw, h]; decide
  · simp only [List.mem_cons, List.not_mem_nil, or_false, not_or] at h
    obtain ⟨h1, h2, h3, h4, h5⟩ := h
    rw [hrw]
    have e1 : (pyLower (pySplitext p).2 == ".wav") = false := beq_eq_false_iff_ne.mpr h1
    have e2 : (pyLower (pySplitext p).2 == ".mp3") = false := beq_eq_false_iff_ne.mpr h2
    have e3 : (pyLower (pySplitext p).2 == ".m4a") = false := beq_eq_false_iff_ne.mpr h3
    have e4 : (pyLower (pySplitext p).2 == ".ogg") = false := beq_eq_false_iff_ne.mpr h4
    have e5 : (pyLower (pySplitext p).2 == ".flac") = false := beq_eq_false_iff_ne.mpr h5
    simp [mimeGet, mime_type_map, List.lookup, e1, e2, e3, e4, e5]

/-- Witness for C3 at `song.mp3`: lowercased extension `.mp3` maps to
`audio/mpeg`, and an unknown extension falls back to `audio/wav`. -/
theorem C3_mime_type_table_witness :
    pyLower (pySplitext "song.mp3").2 = ".mp3" ∧
    uploadMimeType "song.mp3" = "audio/mpeg" ∧
    pyLower (pySplitext "song.aiff").2 ∉ ([".wav", ".mp3", ".m4a", ".ogg", ".flac"] : List String) ∧
    uploadMimeType "song.aiff" = "audio/wav" :=
  ⟨by decide, (C3_mime_type_table "song.mp3").2.1 (by decide), by decide,
    (C3_mime_type_table "song.aiff").2.2.2.2.2 (by decide)⟩

/-- C9: the extension is lowercased before the table lookup, so the mime
type depends only on the lowercased extension; in particular mixed-case
variants of a recognized extension get the same mime type as their
lowercase form. -/
theorem C9_mime_lookup_case_insensitive (p q : String)
    (h : pyLower (pySplitext p).2 = pyLower (pySplitext q).2) :
    uploadMimeType p = uploadMimeType q := by
  unfold uploadMimeType
  rw [h]

/-- Witness for C9: `a.WAV` and `a.Mp3` behave like `a.wav` and `a.mp3`. -/
theorem C9_mime_lookup_case_insensitive_witness :
    pyLower (pySplitext "a.WAV").2 = pyLower (pySplitext "a.wav").2 ∧
    uploadMimeType "a.WAV" = uploadMimeType "a.wav" ∧
    uploadMimeType "a.WAV" = "audio/wav" ∧
    uploadMimeType "a.Mp3" = "audio/mpeg" :=
  ⟨by decide, C9_mime_lookup_case_insensitive "a.WAV" "a.wav" (by decide),
    by decide, by decide⟩

/-- A non-200 status or a non-truthy `file.uri` makes the upload return no
pair, after showing one error message. -/
theorem upload_bad_response_yields_none (u : UploadResponse)
    (hbad : u.status_code ≠ 200 ∨ pyTruthy u.fileUri = false)
    (path dn : String) (tr : Trace) :
    ∃ m, upload_audio_to_gemini (Except.ok u) path dn tr
      = ({ tr with uploadCalled := true, errors := tr.errors ++ [m] }, none) := by
  rcases hbad with hb | hb
  · exact ⟨"Error uploading audio file: Failed to upload file. Response: " ++ u.respText,
      by simp [upload_audio_to_gemini, hb, Trace.addError]⟩
  · by_cases hs : u.status_code = 200
    · exact ⟨"Error uploading audio file: No file URI returned from upload",
        by simp [upload_audio_to_gemini, hs, hb, Trace.addError]⟩
    · exact ⟨"Error uploading audio file: Failed to upload file. Response: " ++ u.respText,
        by simp [upload_audio_to_gemini, hs, Trace.addError]⟩

/-- C4: for an upload response with non-200 status or without a file URI,
the upload yields no URI, the whole request yields no transcript, the
generate call is never issued, an error is surfaced, and the temporary
file is removed. -/
theorem C4_upload_failure_is_fatal (fileName : String) (fileBytes : List Nat)
    (audio_prompt freshBase : String) (u : UploadResponse)
    (genEnv : Except String GenerateResponse)
    (hp : ¬ pyStrip audio_prompt = "")
    (hbad : u.status_code ≠ 200 ∨ pyTruthy u.fileUri = false) :
    (∀ path dn tr, (upload_audio_to_gemini (Except.ok u) path dn tr).2 = none) ∧
    (mainTranscribeUploaded fileName fileBytes audio_prompt freshBase
        (Except.ok u) genEnv Trace.empty).2 = none ∧
    (mainTranscribeUploaded fileName fileBytes audio_prompt freshBase
        (Except.ok u) genEnv Trace.empty).1.generateCalled = false ∧
    (mainTranscribeUploaded fileName fileBytes audio_prompt freshBase
        (Except.ok u) genEnv Trace.empty).1.errors ≠ [] ∧
    (mainTranscribeUploaded fileName fileBytes audio_prompt freshBase
        (Except.ok u) genEnv Trace.empty).1.tempFiles = [] := by
  obtain ⟨m, hm⟩ := upload_bad_response_yields_none u hbad
    (freshBase ++ (pySplitext fileName).2) fileName
    (Trace.empty.addTempFile (freshBase ++ (pySplitext fileName).2) fileBytes)
  have hmain : mainTranscribeUploaded fileName fileBytes audio_prompt freshBase
      (Except.ok u) genEnv Trace.empty
      = ({ Trace.empty.addTempFile (freshBase ++ (pySplitext fileName).2) fileBytes with
            uploadCalled := true,
            errors := [m, "❌ Failed to generate transcript. Please try again."],
            tempFiles := [] }, none) := by
    unfold mainTranscribeUploaded generate_transcript_from_audio
    rw [if_neg hp]
    dsimp only
    rw [hm]
    simp [pyTruthy, Trace.addError, Trace.removeTempFile, Trace.addTempFile, Trace.empty]
  refine ⟨fun path dn tr => ?_, ?_, ?_, ?_, ?_⟩
  · obtain ⟨m', hm'⟩ := upload_bad_response_yields_none u hbad path dn tr
    rw [hm']
  · rw [hmain]
  · rw [hmain]; simp [Trace.addTempFile, Trace.empty]
  · rw [hmain]; simp
  · rw [hmain]

/-- Witness for C4 at a concrete 500 upload response. -/
theorem C4_upload_failure_is_fatal_witness :
    ¬ pyStrip "transcribe" = "" ∧
    ((⟨500, none, "bad"⟩ : UploadResponse).status_code ≠ 200 ∨
      pyTruthy (⟨500, none, "bad"⟩ : UploadResponse).fileUri = false) ∧
    (upload_audio_to_gemini (Except.ok (⟨500, none, "bad"⟩ : UploadResponse))
      "x.wav" "x.wav" Trace.empty).2 = none ∧
    (mainTranscribeUploaded "clip.mp3" [1] "transcribe" "/tmp/t"
      (Except.ok (⟨500, none, "bad"⟩ : UploadResponse)) (Except.error "e") Trace.empty).2 = none ∧
    (mainTranscribeUploaded "clip.mp3" [1] "transcribe" "/tmp/t"
      (Except.ok (⟨500, none, "bad"⟩ : UploadResponse)) (Except.error "e") Trace.empty).1.tempFiles = [] :=
  ⟨by decide, Or.inl (by decide),
    (C4_upload_failure_is_fatal "clip.mp3" [1] "transcribe" "/tmp/t" ⟨500, none, "bad"⟩
      (Except.error "e") (by decide) (Or.inl (by decide))).1 "x.wav" "x.wav" Trace.empty,
    (C4_upload_failure_is_fatal "clip.mp3" [1] "transcribe" "/tmp/t" ⟨500, none, "bad"⟩
      (Except.error "e") (by decide) (Or.inl (by decide))).2.1,
    (C4_upload_failure_is_fatal "clip.mp3" [1] "transcribe" "/tmp/t" ⟨500, none, "bad"⟩
      (Except.error "e") (by decide) (Or.inl (by decide))).2.2.2.2⟩

/-- C5 (counterexample): the message text does not start with the wording
"produce well-formed JSON matching the described format"; at prompt `"p"`
and transcript `"t"` the built message differs from the claimed one. -/
theorem C5_instruction_wording_counterexample :
    process_text_contents "p" "t"
      ≠ [{ role := "user",
           parts := ["produce well-formed JSON matching the described format\np\nt"] }] := by
  decide

/-- C5 (amended): the text-processing client builds exactly one user-role
message with one text part, the literal instruction "Give Proper JSON
output as mentioned in the format, that will make it easier to parse."
followed by the caller's prompt and then the transcript, the three pieces
concatenated with newlines. -/
theorem C5_single_user_message (prompt transcript : String) :
    process_text_contents prompt transcript
      = [{ role := "user",
           parts := ["Give Proper JSON output as mentioned in the format, that will make it easier to parse.\n"
             ++ prompt ++ "\n" ++ transcript] }] := rfl

/-- C6: an empty or whitespace-only prompt in either mode, or an empty or
whitespace-only transcript in the text-processing mode, blocks the action
with a warning: no remote call of any kind is issued and no error is
shown. -/
theorem C6_blank_input_blocks_with_warning :
    (∀ fileName fileBytes audio_prompt freshBase uploadEnv genEnv,
       pyStrip audio_prompt = "" →
       (mainTranscribeUploaded fileName fileBytes audio_prompt freshBase
           uploadEnv genEnv Trace.empty)
         = (Trace.empty.addWarning "⚠️ Please enter a transcription prompt", none)) ∧
    (∀ audio_url audio_prompt freshBase dlEnv uploadEnv genEnv,
       pyStrip audio_prompt = "" →
       (mainTranscribeUrl audio_url audio_prompt freshBase dlEnv uploadEnv genEnv Trace.empty)
         = (Trace.empty.addWarning "⚠️ Please enter a transcription prompt", none)) ∧
    (∀ prompt transcript env,
       pyStrip prompt = "" ∨ (¬ pyStrip prompt = "" ∧ pyStrip transcript = "") →
       ∃ w, mainProcessText prompt transcript env Trace.empty
         = (Trace.empty.addWarning w, none)) ∧
    (∀ w, ((Trace.empty.addWarning w).warnings ≠ [] ∧
      (Trace.empty.addWarning w).errors = [] ∧
      (Trace.empty.addWarning w).downloadCalled = false ∧
      (Trace.empty.addWarning w).uploadCalled = false ∧
      (Trace.empty.addWarning w).generateCalled = false ∧
      (Trace.empty.addWarning w).processCalled = false)) := by
  refine ⟨?_, ?_, ?_, ?_⟩
  · intro fileName fileBytes audio_prompt freshBase uploadEnv genEnv h
    unfold mainTranscribeUploaded
    rw [if_pos h]
  · intro audio_url audio_prompt freshBase dlEnv uploadEnv genEnv h
    unfold mainTranscribeUrl
    rw [if_pos h]
  · intro prompt transcript env h
    rcases h with h | ⟨hp, ht⟩
    · exact ⟨"⚠️ Please enter a prompt", by unfold mainProcessText; rw [if_pos h]⟩
    · exact ⟨"⚠️ Please enter a transcript",
        by unfold mainProcessText; rw [if_neg hp, if_pos ht]⟩
  · intro w
    simp [Trace.addWarning, Trace.empty]

/-- Witness for C6 at whitespace-only inputs in both modes. -/
theorem C6_blank_input_blocks_with_warning_witness :
    pyStrip " \t " = "" ∧
    mainTranscribeUploaded "a.wav" [1] " \t " "/tmp/t" (Except.error "e")
        (Except.error "e") Trace.empty
      = (Trace.empty.addWarning "⚠️ Please enter a transcription prompt", none) ∧
    (∃ w, mainProcessText "ask" " \t " (Except.error "e") Trace.empty
      = (Trace.empty.addWarning w, none)) :=
  ⟨by decide,
    C6_blank_input_blocks_with_warning.1 "a.wav" [1] " \t " "/tmp/t"
      (Except.error "e") (Except.error "e") (by decide),
    C6_blank_input_blocks_with_warning.2.2.1 "ask" " \t " (Except.error "e")
      (Or.inr ⟨by decide, by decide⟩)⟩

/-- C7: a successful download writes the streamed body to a new temporary
file whose name carries the fixed `.wav` suffix — independently of the
downloaded content type — and returns that path; any network or I/O
failure shows an error and returns no path. -/
theorem C7_download_stager (freshBase : String) (tr : Trace) :
    (∀ contentType chunks,
       (download_audio_from_url (.ok contentType chunks) freshBase tr).2
           = some (freshBase ++ ".wav") ∧
       (download_audio_from_url (.ok contentType chunks) freshBase tr).1.tempFiles
           = tr.tempFiles ++ [(freshBase ++ ".wav", chunks.flatten)] ∧
       (download_audio_from_url (.ok contentType chunks) freshBase tr).1.errors
           = tr.errors) ∧
    (∀ contentType contentType' chunks,
       download_audio_from_url (.ok contentType chunks) freshBase tr
         = download_audio_from_url (.ok contentType' chunks) freshBase tr) ∧
    (∀ msg,
       (download_audio_from_url (.getFails msg) freshBase tr).2 = none ∧
       (download_audio_from_url (.getFails msg) freshBase tr).1.errors
         = tr.errors ++ ["Error downloading audio from URL: " ++ msg]) ∧
    (∀ written msg,
       (download_audio_from_url (.writeFails written msg) freshBase tr).2 = none ∧
       (download_audio_from_url (.writeFails written msg) freshBase tr).1.errors
         = tr.errors ++ ["Error downloading audio from URL: " ++ msg]) := by
  refine ⟨fun contentType chunks => ?_, fun c c' chunks => rfl, fun msg => ?_, fun written msg => ?_⟩
  · exact ⟨rfl, by simp [download_audio_from_url, Trace.addTempFile], rfl⟩
  · exact ⟨rfl, by simp [download_audio_from_url, Trace.addError]⟩
  · exact ⟨rfl, by simp [download_audio_from_url, Trace.addError, Trace.addTempFile]⟩

/-- C8: the text-processing configuration sets content-safety filtering
to the no-block threshold for exactly the four harm categories hate
speech, sexually explicit content, harassment, and dangerous content. -/
theorem C8_safety_settings_block_none :
    process_text_safety_settings.map Prod.fst
        = [HarmCategory.HARM_CATEGORY_HATE_SPEECH,
           HarmCategory.HARM_CATEGORY_SEXUALLY_EXPLICIT,
           HarmCategory.HARM_CATEGORY_HARASSMENT,
           HarmCategory.HARM_CATEGORY_DANGEROUS_CONTENT] ∧
    process_text_safety_settings.map Prod.snd
        = [HarmBlockThreshold.BLOCK_NONE, HarmBlockThreshold.BLOCK_NONE,
           HarmBlockThreshold.BLOCK_NONE, HarmBlockThreshold.BLOCK_NONE] ∧
    process_text_safety_settings.length = 4 := by
  refine ⟨rfl, rfl, rfl⟩

/-- C10: the text-processing client maps an empty-string response text and
a missing response text both to no result, and never returns an empty
string as a successful result. -/
theorem C10_empty_text_is_no_result (prompt transcript : String) (tr : Trace) :
    (process_text_with_gemini (Except.ok (some "")) prompt transcript tr).2 = none ∧
    (process_text_with_gemini (Except.ok none) prompt transcript tr).2 = none ∧
    (process_text_with_gemini (Except.ok (some "")) prompt transcript tr)
      = (process_text_with_gemini (Except.ok none) prompt transcript tr) ∧
    ∀ env : Except String (Option String),
      (process_text_with_gemini env prompt transcript tr).2 ≠ some "" := by
  refine ⟨rfl, rfl, rfl, fun env => ?_⟩
  match env with
  | .error msg => simp [process_text_with_gemini]
  | .ok none => simp [process_text_with_gemini, pyTruthy]
  | .ok (some s) =>
    by_cases hs : s = ""
    · simp [process_text_with_gemini, pyTruthy, hs]
    · simp [process_text_with_gemini, pyTruthy, hs]

/-- Witness for C10 at a concrete empty-string provider response. -/
theorem C10_empty_text_is_no_result_witness :
    (process_text_with_gemini (Except.ok (some "")) "summarize" "the cat sat"
        Trace.empty).2 = none ∧
    (process_text_with_gemini (Except.ok (some "hi")) "summarize" "the cat sat"
        Trace.empty).2 ≠ some "" :=
  ⟨(C10_empty_text_is_no_result "summarize" "the cat sat" Trace.empty).1,
    (C10_empty_text_is_no_result "summarize" "the cat sat" Trace.empty).2.2.2
      (Except.ok (some "hi"))⟩

/-- C1: the claim fails on the code — when the URL download's chunk loop
raises after `NamedTemporaryFile(delete=False)` already created the file,
`download_audio_from_url` returns `None` without unlinking it, and the
caller's `finally` block (whose `tmp_path` is `None`) cannot remove it:
the request completes with a residual temporary file on disk. -/
theorem C1_url_write_failure_leaks_temp_file :
    (mainTranscribeUrl "http://host/a.wav" "transcribe this" "/tmp/t0"
        (.writeFails [[1, 2, 3]] "connection reset") (Except.error "unreached")
        (Except.error "unreached") Trace.empty).2 = none ∧
    (mainTranscribeUrl "http://host/a.wav" "transcribe this" "/tmp/t0"
        (.writeFails [[1, 2, 3]] "connection reset") (Except.error "unreached")
        (Except.error "unreached") Trace.empty).1.tempFiles
      = [("/tmp/t0.wav", [1, 2, 3])] := by
  exact ⟨by decide, by decide⟩

end App
